import Mathlib

/-!
Verification of the audio transcoding callback layer
(`src/thirdparty/moonlight/callback.c`).

The C file keeps six globals: a multistream decoder handle, an encoder
handle, the captured stream configuration, a decode PCM buffer, a stereo
downmix PCM buffer and a fixed 4000-byte packet buffer.  We embed that
state as `CState` and the three entry points `arInit`, `arCleanup` and
`arDecodeAndPlaySample` as explicit state-passing functions.  External
calls (opus construction/destruction, `malloc`, the Go host callbacks
`goArInit` / `goArCleanup` / `goArPlayEncodedSample`, and the opus
decode/encode calls themselves) are modelled by oracle environments
(`InitEnv`, `FrameEnv`) saying whether each fallible step succeeds and
what data an external call produces.  Live codec instances are counted
(`liveDec`, `liveEnc`): a successful create increments, a destroy
decrements, so coexistence of two instances is observable.  `arInit`
also returns the list of intermediate states after each primitive
operation so that properties "at every instant during the call" can be
stated.
-/

/-- Mirror of `OPUS_MULTISTREAM_CONFIGURATION` (sampleRate, channelCount,
streams, coupledStreams, samplesPerFrame, mapping). -/
structure OPUS_MULTISTREAM_CONFIGURATION where
  sampleRate : Nat
  channelCount : Nat
  streams : Nat
  coupledStreams : Nat
  mapping : List Nat
  samplesPerFrame : Nat
deriving Repr, DecidableEq

/-- A live multistream decoder instance, remembered by its creation
parameters (`opus_multistream_decoder_create` arguments). -/
structure OpusMSDecoderState where
  sampleRate : Nat
  channels : Nat
  streams : Nat
  coupledStreams : Nat
  mapping : List Nat
deriving Repr, DecidableEq

/-- The opus constant `OPUS_APPLICATION_RESTRICTED_LOWDELAY`. -/
def OPUS_APPLICATION_RESTRICTED_LOWDELAY : Nat := 2051

/-- A live encoder instance: creation parameters plus the two knobs the
code sets through `opus_encoder_ctl` (bitrate, complexity). -/
structure OpusEncoderState where
  sampleRate : Nat
  channels : Nat
  application : Nat
  bitrate : Nat
  complexity : Nat
deriving Repr, DecidableEq

/-- The six file-scope globals of `callback.c`, plus live-instance
counters making codec lifetimes observable.  Buffers are `none` when the
pointer is NULL, otherwise the list models the allocated contents (the
list length is the allocated capacity in samples / bytes). -/
structure CState where
  decoder : Option OpusMSDecoderState
  opusConfig : OPUS_MULTISTREAM_CONFIGURATION
  encoder : Option OpusEncoderState
  decodedPcm : Option (List Int)
  encodePcm : Option (List Int)
  opusData : Option (List Nat)
  liveDec : Nat
  liveEnc : Nat
deriving Repr, DecidableEq

/-- The zero-initialized configuration the C globals start with. -/
def defaultConfig : OPUS_MULTISTREAM_CONFIGURATION :=
  ⟨0, 0, 0, 0, [], 0⟩

/-- Program start: every global pointer NULL, no live instances. -/
def init0 : CState :=
  ⟨none, defaultConfig, none, none, none, none, 0, 0⟩

/-- Oracle for one `arInit` call: whether each external fallible step
succeeds, and what the Go host init callback returns. -/
structure InitEnv where
  decoderOk : Bool
  encoderOk : Bool
  decodedPcmOk : Bool
  encodePcmOk : Bool
  opusDataOk : Bool
  goArInitResult : Int
deriving Repr, DecidableEq

/-- Result of `arInit`: the C return value, the final global state, and
the intermediate states after each primitive operation (the first trace
entry is the entry state). -/
structure InitOut where
  res : Int
  fin : CState
  trace : List CState
deriving Repr, DecidableEq

/-- The guarded destroy block `if (decoder != NULL) { destroy; NULL; }`
(callback.c lines 36-39 and 140-143). -/
def destroyDec (s : CState) : CState :=
  if s.decoder.isSome then
    { s with decoder := none, liveDec := s.liveDec - 1 } else s

/-- The guarded destroy block for the encoder (callback.c lines 41-44
and 145-148). -/
def destroyEnc (s : CState) : CState :=
  if s.encoder.isSome then
    { s with encoder := none, liveEnc := s.liveEnc - 1 } else s

/-- The guarded free block for the decode buffer (callback.c lines 83-86
and 150-153). -/
def freeDecodedPcm (s : CState) : CState :=
  if s.decodedPcm.isSome then { s with decodedPcm := none } else s

/-- The guarded free block for the downmix buffer (callback.c lines
98-101 and 155-158). -/
def freeEncodePcm (s : CState) : CState :=
  if s.encodePcm.isSome then { s with encodePcm := none } else s

/-- The guarded free block for the packet buffer (callback.c lines
115-118 and 160-163). -/
def freeOpusData (s : CState) : CState :=
  if s.opusData.isSome then { s with opusData := none } else s

/-- `opusConfig = *config` (callback.c line 47). -/
def storeConfig (cfg : OPUS_MULTISTREAM_CONFIGURATION) (s : CState) : CState :=
  { s with opusConfig := cfg }

/-- `(config->channelCount > 2) ? 2 : config->channelCount`
(callback.c line 63). -/
def outputChannelsOf (cfg : OPUS_MULTISTREAM_CONFIGURATION) : Nat :=
  if cfg.channelCount > 2 then 2 else cfg.channelCount

/-- A successful `opus_multistream_decoder_create` (callback.c lines
50-57). -/
def createDecoder (cfg : OPUS_MULTISTREAM_CONFIGURATION) (s : CState) : CState :=
  { s with
    decoder := some ⟨cfg.sampleRate, cfg.channelCount, cfg.streams,
      cfg.coupledStreams, cfg.mapping⟩,
    liveDec := s.liveDec + 1 }

/-- A successful `opus_encoder_create` (callback.c lines 66-71); opus
defaults before the two ctl calls: bitrate auto (0 here), complexity 9. -/
def createEncoder (cfg : OPUS_MULTISTREAM_CONFIGURATION) (s : CState) : CState :=
  { s with
    encoder := some ⟨cfg.sampleRate, outputChannelsOf cfg,
      OPUS_APPLICATION_RESTRICTED_LOWDELAY, 0, 9⟩,
    liveEnc := s.liveEnc + 1 }

/-- `opus_encoder_ctl(encoder, OPUS_SET_BITRATE(b))` (callback.c line 79). -/
def encCtlBitrate (b : Nat) (s : CState) : CState :=
  { s with encoder := s.encoder.map (fun e => { e with bitrate := b }) }

/-- `opus_encoder_ctl(encoder, OPUS_SET_COMPLEXITY(c))` (callback.c line 80). -/
def encCtlComplexity (c : Nat) (s : CState) : CState :=
  { s with encoder := s.encoder.map (fun e => { e with complexity := c }) }

/-- A successful `malloc` of the decode buffer (callback.c line 88). -/
def allocDecodedPcm (cfg : OPUS_MULTISTREAM_CONFIGURATION) (s : CState) : CState :=
  { s with
    decodedPcm := some (List.replicate (cfg.samplesPerFrame * cfg.channelCount) 0) }

/-- A successful `malloc` of the downmix buffer (callback.c line 103). -/
def allocEncodePcm (cfg : OPUS_MULTISTREAM_CONFIGURATION) (s : CState) : CState :=
  { s with encodePcm := some (List.replicate (cfg.samplesPerFrame * 2) 0) }

/-- A successful `malloc(4000)` of the packet buffer (callback.c line 120). -/
def allocOpusData (s : CState) : CState :=
  { s with opusData := some (List.replicate 4000 0) }

/-- `arInit` (callback.c lines 33-137): destroy any prior decoder and
encoder, capture the config, create the decoder for the full layout,
create the encoder for `min(channelCount, 2)` channels with bitrate
`64000 × outputChannels` and complexity 5, then free-and-reallocate the
decode buffer, the downmix buffer (only when `channelCount > 2`) and the
4000-byte packet buffer, rolling back codecs and this call's buffers on
each failure; finally forward the Go host init callback's result. -/
def arInit (config : OPUS_MULTISTREAM_CONFIGURATION) (env : InitEnv)
    (s0 : CState) : InitOut :=
  -- lines 36-39: destroy a prior decoder
  let s1 := destroyDec s0
  -- lines 41-44: destroy a prior encoder
  let s2 := destroyEnc s1
  -- lines 46-48: capture *config (config is non-null in this model)
  let s3 := storeConfig config s2
  -- lines 50-61: opus_multistream_decoder_create
  if env.decoderOk = false then
    ⟨-1, s3, [s0, s1, s2, s3]⟩
  else
  let s4 := createDecoder config s3
  -- lines 66-77: opus_encoder_create, rollback of the decoder on failure
  if env.encoderOk = false then
    let s5 := destroyDec s4
    ⟨-1, s5, [s0, s1, s2, s3, s4, s5]⟩
  else
  let s5 := createEncoder config s4
  -- lines 79-80: opus_encoder_ctl bitrate / complexity (line 64)
  let s6 := encCtlBitrate (64000 * outputChannelsOf config) s5
  let s7 := encCtlComplexity 5 s6
  -- lines 82-86: free a prior decode buffer
  let s8 := freeDecodedPcm s7
  -- lines 88-95: malloc the decode buffer, rollback of both codecs on failure
  if env.decodedPcmOk = false then
    let s9 := destroyEnc (destroyDec s8)
    ⟨-1, s9, [s0, s1, s2, s3, s4, s5, s6, s7, s8, s9]⟩
  else
  let s9 := allocDecodedPcm config s8
  let tr9 := [s0, s1, s2, s3, s4, s5, s6, s7, s8, s9]
  -- lines 115-137, shared by both branches of the channelCount test:
  -- free a prior packet buffer, malloc the new one (full rollback on
  -- failure), then forward goArInit's result
  let finish := fun (sx : CState) (tr : List CState) =>
    let sA := freeOpusData sx
    if env.opusDataOk = false then
      let sB := freeEncodePcm (freeDecodedPcm (destroyEnc (destroyDec sA)))
      ⟨-1, sB, tr ++ [sA, sB]⟩
    else
      let sB := allocOpusData sA
      (⟨env.goArInitResult, sB, tr ++ [sA, sB]⟩ : InitOut)
  -- lines 97-113: the downmix buffer, only for more than two channels
  if config.channelCount > 2 then
    let sA := freeEncodePcm s9
    if env.encodePcmOk = false then
      let sB := freeDecodedPcm (destroyEnc (destroyDec sA))
      ⟨-1, sB, tr9 ++ [sA, sB]⟩
    else
      let sB := allocEncodePcm config sA
      finish sB (tr9 ++ [sA, sB])
  else
    finish s9 tr9

/-- Observable actions of the callback layer: the destroy / free steps
of `arCleanup`, the opus decode / encode calls of the frame path, the
downstream forward `goArPlayEncodedSample(opusData, len)` and the host
teardown notification `goArCleanup()`. -/
inductive ArEvent where
  | destroyDecoderEv
  | destroyEncoderEv
  | freeDecodedPcmEv
  | freeEncodePcmEv
  | freeOpusDataEv
  | decodeCall
  | encodeCall
  | forward (length : Int)
  | hostCleanup
deriving Repr, DecidableEq

/-- `arCleanup` (callback.c lines 139-166): destroy / free each global
that is non-NULL, then always call the Go host teardown callback. -/
def arCleanup (s : CState) : CState × List ArEvent :=
  let s5 := freeOpusData (freeEncodePcm (freeDecodedPcm (destroyEnc (destroyDec s))))
  let e1 : List ArEvent :=
    if s.decoder.isSome then [ArEvent.destroyDecoderEv] else []
  let e2 : List ArEvent :=
    if s.encoder.isSome then [ArEvent.destroyEncoderEv] else []
  let e3 : List ArEvent :=
    if s.decodedPcm.isSome then [ArEvent.freeDecodedPcmEv] else []
  let e4 : List ArEvent :=
    if s.encodePcm.isSome then [ArEvent.freeEncodePcmEv] else []
  let e5 : List ArEvent :=
    if s.opusData.isSome then [ArEvent.freeOpusDataEv] else []
  (s5, e1 ++ e2 ++ e3 ++ e4 ++ e5 ++ [ArEvent.hostCleanup])

/-- Oracle for one `arDecodeAndPlaySample` call: the result and output of
`opus_multistream_decode` and of `opus_encode`. -/
structure FrameEnv where
  decodeResult : Int
  decodeData : List Int
  encodeResult : Int
  encodeData : List Nat
deriving Repr, DecidableEq

/-- An external call writing `n` leading cells of buffer `old` from
`new`, preserving the allocation's length. -/
def memWrite {α : Type} (old new : List α) (n : Nat) (d : α) : List α :=
  (List.range old.length).map (fun i => if i < n then new.getD i d else old.getD i d)

/-- The downmix loop of `arDecodeAndPlaySample` (callback.c lines
188-191) after `count` iterations: iteration `i` writes input channel 0
of sample frame `i` to output index `i*2` and input channel 1 to
`i*2 + 1`. -/
def downmixLoop (decodedPcm : List Int) (channelCount : Nat)
    (buf : List Int) : Nat → List Int
  | 0 => buf
  | i + 1 =>
    let b := downmixLoop decodedPcm channelCount buf i
    (b.set (i * 2) (decodedPcm.getD (i * channelCount) 0)).set (i * 2 + 1)
      (decodedPcm.getD (i * channelCount + 1) 0)

/-- Result of one `arDecodeAndPlaySample` call: the final state, the PCM
list handed to `opus_encode` (`none` when encode was not reached), and
the emitted events. -/
structure FrameOut where
  fin : CState
  encoderInput : Option (List Int)
  events : List ArEvent
deriving Repr, DecidableEq

/-- `arDecodeAndPlaySample` (callback.c lines 168-209): return at once
unless both codec handles are live, the data pointer is non-null and the
length positive; decode (a negative sample count drops the frame);
downmix channels 0/1 into the stereo buffer when `channelCount > 2` and
the buffer exists, otherwise feed the decode buffer directly; encode (a
negative byte count drops the frame); forward the packet downstream. -/
def arDecodeAndPlaySample (env : FrameEnv) (sampleData : Option (List Nat))
    (sampleLength : Int) (s : CState) : FrameOut :=
  if s.decoder.isNone || s.encoder.isNone || sampleData.isNone
      || sampleLength ≤ 0 then
    ⟨s, none, []⟩
  else
    let decodedSamples := env.decodeResult
    if decodedSamples < 0 then
      ⟨s, none, [ArEvent.decodeCall]⟩
    else
      let dbuf := memWrite (s.decodedPcm.getD []) env.decodeData
        (decodedSamples.toNat * s.opusConfig.channelCount) 0
      let s1 := { s with decodedPcm := some dbuf }
      let (inputPcm, s2) :=
        if s.opusConfig.channelCount > 2 && s1.encodePcm.isSome then
          let ebuf := downmixLoop dbuf s.opusConfig.channelCount
            (s1.encodePcm.getD []) decodedSamples.toNat
          (ebuf, { s1 with encodePcm := some ebuf })
        else
          (dbuf, s1)
      if env.encodeResult < 0 then
        ⟨s2, some inputPcm, [ArEvent.decodeCall, ArEvent.encodeCall]⟩
      else
        let packet := memWrite (s2.opusData.getD []) env.encodeData
          env.encodeResult.toNat 0
        ⟨{ s2 with opusData := some packet }, some inputPcm,
          [ArEvent.decodeCall, ArEvent.encodeCall,
            ArEvent.forward env.encodeResult]⟩

/-- A sequence of `arDecodeAndPlaySample` calls, threading the state and
concatenating the emitted events. -/
def runFrames : List (FrameEnv × Option (List Nat) × Int) → CState →
    CState × List ArEvent
  | [], s => (s, [])
  | c :: cs, s =>
    let out := arDecodeAndPlaySample c.1 c.2.1 c.2.2 s
    let rest := runFrames cs out.fin
    (rest.1, out.events ++ rest.2)

/-- States reachable from program start by any sequence of the three
entry points. -/
inductive Reach : CState → Prop where
  | start : Reach init0
  | doInit : ∀ (s : CState) (cfg : OPUS_MULTISTREAM_CONFIGURATION)
      (env : InitEnv), Reach s → Reach (arInit cfg env s).fin
  | doCleanup : ∀ (s : CState), Reach s → Reach (arCleanup s).1
  | doFrame : ∀ (s : CState) (env : FrameEnv) (d : Option (List Nat))
      (l : Int), Reach s → Reach (arDecodeAndPlaySample env d l s).fin

/-- The state invariant: the live-instance counters agree with the
handle fields, and whenever both handles are live the decode and packet
buffers are allocated at the capacities derived from the stored config
(with the downmix buffer too when `channelCount > 2`). -/
def StateInv (s : CState) : Prop :=
  s.liveDec = (if s.decoder.isSome then 1 else 0) ∧
  s.liveEnc = (if s.encoder.isSome then 1 else 0) ∧
  (s.decoder.isSome → s.encoder.isSome →
    (∃ d, s.decodedPcm = some d ∧
      d.length = s.opusConfig.samplesPerFrame * s.opusConfig.channelCount) ∧
    (∃ p, s.opusData = some p ∧ p.length = 4000) ∧
    (s.opusConfig.channelCount > 2 →
      ∃ e, s.encodePcm = some e ∧
        e.length = s.opusConfig.samplesPerFrame * 2))

/-- A small stereo configuration used for concrete runs. -/
def cfg2 : OPUS_MULTISTREAM_CONFIGURATION := ⟨48000, 2, 1, 1, [0, 1], 2⟩

/-- A small 5.1 configuration (one sample per frame) used for concrete
runs. -/
def cfg6 : OPUS_MULTISTREAM_CONFIGURATION := ⟨48000, 6, 4, 2, [0, 1, 2, 3, 4, 5], 1⟩

/-- The end-to-end configuration of the spec's testable property. -/
def cfg8 : OPUS_MULTISTREAM_CONFIGURATION := ⟨48000, 6, 4, 2, [0, 1, 2, 3, 4, 5], 240⟩

/-- Oracle where every external step succeeds and the host init callback
reports success. -/
def allOkEnv : InitEnv := ⟨true, true, true, true, true, 0⟩

/-- Oracle where `opus_multistream_decoder_create` fails. -/
def decFailEnv : InitEnv := ⟨false, true, true, true, true, 0⟩

/-- Oracle where every local step succeeds but the Go host init callback
reports failure. -/
def goFailEnv : InitEnv := ⟨true, true, true, true, true, -1⟩

/-! ## Basic lemmas about the embedded operations -/

@[simp] lemma destroyDec_decoder (s : CState) : (destroyDec s).decoder = none := by
  unfold destroyDec; split_ifs with h <;> simp_all [Option.not_isSome_iff_eq_none]

@[simp] lemma destroyDec_encoder (s : CState) : (destroyDec s).encoder = s.encoder := by
  unfold destroyDec; split_ifs <;> rfl

@[simp] lemma destroyDec_opusConfig (s : CState) :
    (destroyDec s).opusConfig = s.opusConfig := by
  unfold destroyDec; split_ifs <;> rfl

@[simp] lemma destroyDec_decodedPcm (s : CState) :
    (destroyDec s).decodedPcm = s.decodedPcm := by
  unfold destroyDec; split_ifs <;> rfl

@[simp] lemma destroyDec_encodePcm (s : CState) :
    (destroyDec s).encodePcm = s.encodePcm := by
  unfold destroyDec; split_ifs <;> rfl

@[simp] lemma destroyDec_opusData (s : CState) :
    (destroyDec s).opusData = s.opusData := by
  unfold destroyDec; split_ifs <;> rfl

@[simp] lemma destroyDec_liveEnc (s : CState) : (destroyDec s).liveEnc = s.liveEnc := by
  unfold destroyDec; split_ifs <;> rfl

lemma destroyDec_liveDec (s : CState)
    (h : s.liveDec = if s.decoder.isSome then 1 else 0) :
    (destroyDec s).liveDec = 0 := by
  unfold destroyDec; split_ifs with hh <;> simp_all

@[simp] lemma destroyEnc_encoder (s : CState) : (destroyEnc s).encoder = none := by
  unfold destroyEnc; split_ifs with h <;> simp_all [Option.not_isSome_iff_eq_none]

@[simp] lemma destroyEnc_decoder (s : CState) : (destroyEnc s).decoder = s.decoder := by
  unfold destroyEnc; split_ifs <;> rfl

@[simp] lemma destroyEnc_opusConfig (s : CState) :
    (destroyEnc s).opusConfig = s.opusConfig := by
  unfold destroyEnc; split_ifs <;> rfl

@[simp] lemma destroyEnc_decodedPcm (s : CState) :
    (destroyEnc s).decodedPcm = s.decodedPcm := by
  unfold destroyEnc; split_ifs <;> rfl

@[simp] lemma destroyEnc_encodePcm (s : CState) :
    (destroyEnc s).encodePcm = s.encodePcm := by
  unfold destroyEnc; split_ifs <;> rfl

@[simp] lemma destroyEnc_opusData (s : CState) :
    (destroyEnc s).opusData = s.opusData := by
  unfold destroyEnc; split_ifs <;> rfl

@[simp] lemma destroyEnc_liveDec (s : CState) : (destroyEnc s).liveDec = s.liveDec := by
  unfold destroyEnc; split_ifs <;> rfl

lemma destroyEnc_liveEnc (s : CState)
    (h : s.liveEnc = if s.encoder.isSome then 1 else 0) :
    (destroyEnc s).liveEnc = 0 := by
  unfold destroyEnc; split_ifs with hh <;> simp_all

@[simp] lemma freeDecodedPcm_decodedPcm (s : CState) :
    (freeDecodedPcm s).decodedPcm = none := by
  unfold freeDecodedPcm; split_ifs with h <;> simp_all [Option.not_isSome_iff_eq_none]

@[simp] lemma freeDecodedPcm_decoder (s : CState) :
    (freeDecodedPcm s).decoder = s.decoder := by
  unfold freeDecodedPcm; split_ifs <;> rfl

@[simp] lemma freeDecodedPcm_encoder (s : CState) :
    (freeDecodedPcm s).encoder = s.encoder := by
  unfold freeDecodedPcm; split_ifs <;> rfl

@[simp] lemma freeDecodedPcm_opusConfig (s : CState) :
    (freeDecodedPcm s).opusConfig = s.opusConfig := by
  unfold freeDecodedPcm; split_ifs <;> rfl

@[simp] lemma freeDecodedPcm_encodePcm (s : CState) :
    (freeDecodedPcm s).encodePcm = s.encodePcm := by
  unfold freeDecodedPcm; split_ifs <;> rfl

@[simp] lemma freeDecodedPcm_opusData (s : CState) :
    (freeDecodedPcm s).opusData = s.opusData := by
  unfold freeDecodedPcm; split_ifs <;> rfl

@[simp] lemma freeDecodedPcm_liveDec (s : CState) :
    (freeDecodedPcm s).liveDec = s.liveDec := by
  unfold freeDecodedPcm; split_ifs <;> rfl

@[simp] lemma freeDecodedPcm_liveEnc (s : CState) :
    (freeDecodedPcm s).liveEnc = s.liveEnc := by
  unfold freeDecodedPcm; split_ifs <;> rfl

@[simp] lemma freeEncodePcm_encodePcm (s : CState) :
    (freeEncodePcm s).encodePcm = none := by
  unfold freeEncodePcm; split_ifs with h <;> simp_all [Option.not_isSome_iff_eq_none]

@[simp] lemma freeEncodePcm_decoder (s : CState) :
    (freeEncodePcm s).decoder = s.decoder := by
  unfold freeEncodePcm; split_ifs <;> rfl

@[simp] lemma freeEncodePcm_encoder (s : CState) :
    (freeEncodePcm s).encoder = s.encoder := by
  unfold freeEncodePcm; split_ifs <;> rfl

@[simp] lemma freeEncodePcm_opusConfig (s : CState) :
    (freeEncodePcm s).opusConfig = s.opusConfig := by
  unfold freeEncodePcm; split_ifs <;> rfl

@[simp] lemma freeEncodePcm_decodedPcm (s : CState) :
    (freeEncodePcm s).decodedPcm = s.decodedPcm := by
  unfold freeEncodePcm; split_ifs <;> rfl

@[simp] lemma freeEncodePcm_opusData (s : CState) :
    (freeEncodePcm s).opusData = s.opusData := by
  unfold freeEncodePcm; split_ifs <;> rfl

@[simp] lemma freeEncodePcm_liveDec (s : CState) :
    (freeEncodePcm s).liveDec = s.liveDec := by
  unfold freeEncodePcm; split_ifs <;> rfl

@[simp] lemma freeEncodePcm_liveEnc (s : CState) :
    (freeEncodePcm s).liveEnc = s.liveEnc := by
  unfold freeEncodePcm; split_ifs <;> rfl

@[simp] lemma freeOpusData_opusData (s : CState) :
    (freeOpusData s).opusData = none := by
  unfold freeOpusData; split_ifs with h <;> simp_all [Option.not_isSome_iff_eq_none]

@[simp] lemma freeOpusData_decoder (s : CState) :
    (freeOpusData s).decoder = s.decoder := by
  unfold freeOpusData; split_ifs <;> rfl

@[simp] lemma freeOpusData_encoder (s : CState) :
    (freeOpusData s).encoder = s.encoder := by
  unfold freeOpusData; split_ifs <;> rfl

@[simp] lemma freeOpusData_opusConfig (s : CState) :
    (freeOpusData s).opusConfig = s.opusConfig := by
  unfold freeOpusData; split_ifs <;> rfl

@[simp] lemma freeOpusData_decodedPcm (s : CState) :
    (freeOpusData s).decodedPcm = s.decodedPcm := by
  unfold freeOpusData; split_ifs <;> rfl

@[simp] lemma freeOpusData_encodePcm (s : CState) :
    (freeOpusData s).encodePcm = s.encodePcm := by
  unfold freeOpusData; split_ifs <;> rfl

@[simp] lemma freeOpusData_liveDec (s : CState) :
    (freeOpusData s).liveDec = s.liveDec := by
  unfold freeOpusData; split_ifs <;> rfl

@[simp] lemma freeOpusData_liveEnc (s : CState) :
    (freeOpusData s).liveEnc = s.liveEnc := by
  unfold freeOpusData; split_ifs <;> rfl

@[simp] lemma storeConfig_decoder (cfg : OPUS_MULTISTREAM_CONFIGURATION) (s : CState) :
    (storeConfig cfg s).decoder = s.decoder := rfl

@[simp] lemma storeConfig_opusConfig (cfg : OPUS_MULTISTREAM_CONFIGURATION) (s : CState) :
    (storeConfig cfg s).opusConfig = cfg := rfl

@[simp] lemma storeConfig_encoder (cfg : OPUS_MULTISTREAM_CONFIGURATION) (s : CState) :
    (storeConfig cfg s).encoder = s.encoder := rfl

@[simp] lemma storeConfig_decodedPcm (cfg : OPUS_MULTISTREAM_CONFIGURATION) (s : CState) :
    (storeConfig cfg s).decodedPcm = s.decodedPcm := rfl

@[simp] lemma storeConfig_encodePcm (cfg : OPUS_MULTISTREAM_CONFIGURATION) (s : CState) :
    (storeConfig cfg s).encodePcm = s.encodePcm := rfl

@[simp] lemma storeConfig_opusData (cfg : OPUS_MULTISTREAM_CONFIGURATION) (s : CState) :
    (storeConfig cfg s).opusData = s.opusData := rfl

@[simp] lemma storeConfig_liveDec (cfg : OPUS_MULTISTREAM_CONFIGURATION) (s : CState) :
    (storeConfig cfg s).liveDec = s.liveDec := rfl

@[simp] lemma storeConfig_liveEnc (cfg : OPUS_MULTISTREAM_CONFIGURATION) (s : CState) :
    (storeConfig cfg s).liveEnc = s.liveEnc := rfl

@[simp] lemma createDecoder_decoder (cfg : OPUS_MULTISTREAM_CONFIGURATION) (s : CState) :
    (createDecoder cfg s).decoder = some ⟨cfg.sampleRate, cfg.channelCount, cfg.streams, cfg.coupledStreams, cfg.mapping⟩ := rfl

@[simp] lemma createDecoder_opusConfig (cfg : OPUS_MULTISTREAM_CONFIGURATION) (s : CState) :
    (createDecoder cfg s).opusConfig = s.opusConfig := rfl

@[simp] lemma createDecoder_encoder (cfg : OPUS_MULTISTREAM_CONFIGURATION) (s : CState) :
    (createDecoder cfg s).encoder = s.encoder := rfl

@[simp] lemma createDecoder_decodedPcm (cfg : OPUS_MULTISTREAM_CONFIGURATION) (s : CState) :
    (createDecoder cfg s).decodedPcm = s.decodedPcm := rfl

@[simp] lemma createDecoder_encodePcm (cfg : OPUS_MULTISTREAM_CONFIGURATION) (s : CState) :
    (createDecoder cfg s).encodePcm = s.encodePcm := rfl

@[simp] lemma createDecoder_opusData (cfg : OPUS_MULTISTREAM_CONFIGURATION) (s : CState) :
    (createDecoder cfg s).opusData = s.opusData := rfl

@[simp] lemma createDecoder_liveDec (cfg : OPUS_MULTISTREAM_CONFIGURATION) (s : CState) :
    (createDecoder cfg s).liveDec = s.liveDec + 1 := rfl

@[simp] lemma createDecoder_liveEnc (cfg : OPUS_MULTISTREAM_CONFIGURATION) (s : CState) :
    (createDecoder cfg s).liveEnc = s.liveEnc := rfl

@[simp] lemma createEncoder_decoder (cfg : OPUS_MULTISTREAM_CONFIGURATION) (s : CState) :
    (createEncoder cfg s).decoder = s.decoder := rfl

@[simp] lemma createEncoder_opusConfig (cfg : OPUS_MULTISTREAM_CONFIGURATION) (s : CState) :
    (createEncoder cfg s).opusConfig = s.opusConfig := rfl

@[simp] lemma createEncoder_encoder (cfg : OPUS_MULTISTREAM_CONFIGURATION) (s : CState) :
    (createEncoder cfg s).encoder = some ⟨cfg.sampleRate, outputChannelsOf cfg, OPUS_APPLICATION_RESTRICTED_LOWDELAY, 0, 9⟩ := rfl

@[simp] lemma createEncoder_decodedPcm (cfg : OPUS_MULTISTREAM_CONFIGURATION) (s : CState) :
    (createEncoder cfg s).decodedPcm = s.decodedPcm := rfl

@[simp] lemma createEncoder_encodePcm (cfg : OPUS_MULTISTREAM_CONFIGURATION) (s : CState) :
    (createEncoder cfg s).encodePcm = s.encodePcm := rfl

@[simp] lemma createEncoder_opusData (cfg : OPUS_MULTISTREAM_CONFIGURATION) (s : CState) :
    (createEncoder cfg s).opusData = s.opusData := rfl

@[simp] lemma createEncoder_liveDec (cfg : OPUS_MULTISTREAM_CONFIGURATION) (s : CState) :
    (createEncoder cfg s).liveDec = s.liveDec := rfl

@[simp] lemma createEncoder_liveEnc (cfg : OPUS_MULTISTREAM_CONFIGURATION) (s : CState) :
    (createEncoder cfg s).liveEnc = s.liveEnc + 1 := rfl

@[simp] lemma encCtlBitrate_decoder (b : Nat) (s : CState) :
    (encCtlBitrate b s).decoder = s.decoder := rfl

@[simp] lemma encCtlBitrate_opusConfig (b : Nat) (s : CState) :
    (encCtlBitrate b s).opusConfig = s.opusConfig := rfl

@[simp] lemma encCtlBitrate_encoder (b : Nat) (s : CState) :
    (encCtlBitrate b s).encoder = s.encoder.map (fun e => { e with bitrate := b }) := rfl

@[simp] lemma encCtlBitrate_decodedPcm (b : Nat) (s : CState) :
    (encCtlBitrate b s).decodedPcm = s.decodedPcm := rfl

@[simp] lemma encCtlBitrate_encodePcm (b : Nat) (s : CState) :
    (encCtlBitrate b s).encodePcm = s.encodePcm := rfl

@[simp] lemma encCtlBitrate_opusData (b : Nat) (s : CState) :
    (encCtlBitrate b s).opusData = s.opusData := rfl

@[simp] lemma encCtlBitrate_liveDec (b : Nat) (s : CState) :
    (encCtlBitrate b s).liveDec = s.liveDec := rfl

@[simp] lemma encCtlBitrate_liveEnc (b : Nat) (s : CState) :
    (encCtlBitrate b s).liveEnc = s.liveEnc := rfl

@[simp] lemma encCtlComplexity_decoder (c : Nat) (s : CState) :
    (encCtlComplexity c s).decoder = s.decoder := rfl

@[simp] lemma encCtlComplexity_opusConfig (c : Nat) (s : CState) :
    (encCtlComplexity c s).opusConfig = s.opusConfig := rfl

@[simp] lemma encCtlComplexity_encoder (c : Nat) (s : CState) :
    (encCtlComplexity c s).encoder = s.encoder.map (fun e => { e with complexity := c }) := rfl

@[simp] lemma encCtlComplexity_decodedPcm (c : Nat) (s : CState) :
    (encCtlComplexity c s).decodedPcm = s.decodedPcm := rfl

@[simp] lemma encCtlComplexity_encodePcm (c : Nat) (s : CState) :
    (encCtlComplexity c s).encodePcm = s.encodePcm := rfl

@[simp] lemma encCtlComplexity_opusData (c : Nat) (s : CState) :
    (encCtlComplexity c s).opusData = s.opusData := rfl

@[simp] lemma encCtlComplexity_liveDec (c : Nat) (s : CState) :
    (encCtlComplexity c s).liveDec = s.liveDec := rfl

@[simp] lemma encCtlComplexity_liveEnc (c : Nat) (s : CState) :
    (encCtlComplexity c s).liveEnc = s.liveEnc := rfl

@[simp] lemma allocDecodedPcm_decoder (cfg : OPUS_MULTISTREAM_CONFIGURATION) (s : CState) :
    (allocDecodedPcm cfg s).decoder = s.decoder := rfl

@[simp] lemma allocDecodedPcm_opusConfig (cfg : OPUS_MULTISTREAM_CONFIGURATION) (s : CState) :
    (allocDecodedPcm cfg s).opusConfig = s.opusConfig := rfl

@[simp] lemma allocDecodedPcm_encoder (cfg : OPUS_MULTISTREAM_CONFIGURATION) (s : CState) :
    (allocDecodedPcm cfg s).encoder = s.encoder := rfl

@[simp] lemma allocDecodedPcm_decodedPcm (cfg : OPUS_MULTISTREAM_CONFIGURATION) (s : CState) :
    (allocDecodedPcm cfg s).decodedPcm = some (List.replicate (cfg.samplesPerFrame * cfg.channelCount) 0) := rfl

@[simp] lemma allocDecodedPcm_encodePcm (cfg : OPUS_MULTISTREAM_CONFIGURATION) (s : CState) :
    (allocDecodedPcm cfg s).encodePcm = s.encodePcm := rfl

@[simp] lemma allocDecodedPcm_opusData (cfg : OPUS_MULTISTREAM_CONFIGURATION) (s : CState) :
    (allocDecodedPcm cfg s).opusData = s.opusData := rfl

@[simp] lemma allocDecodedPcm_liveDec (cfg : OPUS_MULTISTREAM_CONFIGURATION) (s : CState) :
    (allocDecodedPcm cfg s).liveDec = s.liveDec := rfl

@[simp] lemma allocDecodedPcm_liveEnc (cfg : OPUS_MULTISTREAM_CONFIGURATION) (s : CState) :
    (allocDecodedPcm cfg s).liveEnc = s.liveEnc := rfl

@[simp] lemma allocEncodePcm_decoder (cfg : OPUS_MULTISTREAM_CONFIGURATION) (s : CState) :
    (allocEncodePcm cfg s).decoder = s.decoder := rfl

@[simp] lemma allocEncodePcm_opusConfig (cfg : OPUS_MULTISTREAM_CONFIGURATION) (s : CState) :
    (allocEncodePcm cfg s).opusConfig = s.opusConfig := rfl

@[simp] lemma allocEncodePcm_encoder (cfg : OPUS_MULTISTREAM_CONFIGURATION) (s : CState) :
    (allocEncodePcm cfg s).encoder = s.encoder := rfl

@[simp] lemma allocEncodePcm_decodedPcm (cfg : OPUS_MULTISTREAM_CONFIGURATION) (s : CState) :
    (allocEncodePcm cfg s).decodedPcm = s.decodedPcm := rfl

@[simp] lemma allocEncodePcm_encodePcm (cfg : OPUS_MULTISTREAM_CONFIGURATION) (s : CState) :
    (allocEncodePcm cfg s).encodePcm = some (List.replicate (cfg.samplesPerFrame * 2) 0) := rfl

@[simp] lemma allocEncodePcm_opusData (cfg : OPUS_MULTISTREAM_CONFIGURATION) (s : CState) :
    (allocEncodePcm cfg s).opusData = s.opusData := rfl

@[simp] lemma allocEncodePcm_liveDec (cfg : OPUS_MULTISTREAM_CONFIGURATION) (s : CState) :
    (allocEncodePcm cfg s).liveDec = s.liveDec := rfl

@[simp] lemma allocEncodePcm_liveEnc (cfg : OPUS_MULTISTREAM_CONFIGURATION) (s : CState) :
    (allocEncodePcm cfg s).liveEnc = s.liveEnc := rfl

@[simp] lemma allocOpusData_decoder (s : CState) :
    (allocOpusData s).decoder = s.decoder := rfl

@[simp] lemma allocOpusData_opusConfig (s : CState) :
    (allocOpusData s).opusConfig = s.opusConfig := rfl

@[simp] lemma allocOpusData_encoder (s : CState) :
    (allocOpusData s).encoder = s.encoder := rfl

@[simp] lemma allocOpusData_decodedPcm (s : CState) :
    (allocOpusData s).decodedPcm = s.decodedPcm := rfl

@[simp] lemma allocOpusData_encodePcm (s : CState) :
    (allocOpusData s).encodePcm = s.encodePcm := rfl

@[simp] lemma allocOpusData_opusData (s : CState) :
    (allocOpusData s).opusData = some (List.replicate 4000 0) := rfl

@[simp] lemma allocOpusData_liveDec (s : CState) :
    (allocOpusData s).liveDec = s.liveDec := rfl

@[simp] lemma allocOpusData_liveEnc (s : CState) :
    (allocOpusData s).liveEnc = s.liveEnc := rfl

lemma memWrite_length {α : Type} (old new : List α) (n : Nat) (d : α) :
    (memWrite old new n d).length = old.length := by
  simp [memWrite]

lemma downmixLoop_length (dec : List Int) (cc : Nat) (buf : List Int) :
    ∀ n, (downmixLoop dec cc buf n).length = buf.length := by
  intro n
  induction n with
  | zero => rfl
  | succ i ih => simp [downmixLoop, ih]

/-- After `n` iterations of the downmix loop, every already-visited
sample frame `j < n` carries input channels 0 and 1 of frame `j` at
output indices `j*2` and `j*2 + 1`. -/
lemma downmixLoop_getD (dec : List Int) (cc : Nat) (buf : List Int)
    (n : Nat) (hn : 2 * n ≤ buf.length) :
    ∀ j, j < n →
      (downmixLoop dec cc buf n).getD (j * 2) 0 = dec.getD (j * cc) 0 ∧
      (downmixLoop dec cc buf n).getD (j * 2 + 1) 0 = dec.getD (j * cc + 1) 0 := by
  induction n with
  | zero => intro j hj; omega
  | succ i ih =>
    intro j hj
    have hlen : (downmixLoop dec cc buf i).length = buf.length :=
      downmixLoop_length dec cc buf i
    rcases Nat.lt_succ_iff_lt_or_eq.mp hj with hj' | rfl
    · have h1 : j * 2 < i * 2 := by omega
      have h2 : j * 2 + 1 < i * 2 := by omega
      have := ih (by omega) j hj'
      simp only [downmixLoop, List.getD_eq_getElem?_getD,
        List.getElem?_set_ne (by omega : i * 2 + 1 ≠ j * 2),
        List.getElem?_set_ne (by omega : i * 2 ≠ j * 2),
        List.getElem?_set_ne (by omega : i * 2 + 1 ≠ j * 2 + 1),
        List.getElem?_set_ne (by omega : i * 2 ≠ j * 2 + 1)]
      simpa [List.getD_eq_getElem?_getD] using this
    · constructor
      · simp only [downmixLoop, List.getD_eq_getElem?_getD,
          List.getElem?_set_ne (by omega : j * 2 + 1 ≠ j * 2)]
        rw [List.getElem?_set_self (by simp [hlen]; omega)]
        simp
      · simp only [downmixLoop, List.getD_eq_getElem?_getD]
        rw [List.getElem?_set_self (by simp [hlen]; omega)]
        simp

/-- The entry guard of `arDecodeAndPlaySample`: with a missing handle, a
null data pointer or a non-positive length the call returns at once with
no event and no state change. -/
lemma frame_guard_noop (env : FrameEnv) (sampleData : Option (List Nat))
    (sampleLength : Int) (s : CState)
    (h : sampleData = none ∨ sampleLength ≤ 0 ∨ s.decoder = none ∨
      s.encoder = none) :
    arDecodeAndPlaySample env sampleData sampleLength s = ⟨s, none, []⟩ := by
  rcases h with h | h | h | h <;>
    simp [arDecodeAndPlaySample, h]

/-- `arCleanup` nulls every global pointer and keeps the stored
configuration. -/
lemma arCleanup_clears (s : CState) :
    (arCleanup s).1.decoder = none ∧ (arCleanup s).1.encoder = none ∧
    (arCleanup s).1.decodedPcm = none ∧ (arCleanup s).1.encodePcm = none ∧
    (arCleanup s).1.opusData = none ∧
    (arCleanup s).1.opusConfig = s.opusConfig := by
  simp [arCleanup]

lemma destroyDec_liveDec_some (s : CState) (h : s.decoder.isSome) :
    (destroyDec s).liveDec = s.liveDec - 1 := by
  unfold destroyDec
  split_ifs <;> simp_all

lemma destroyEnc_liveEnc_some (s : CState) (h : s.encoder.isSome) :
    (destroyEnc s).liveEnc = s.liveEnc - 1 := by
  unfold destroyEnc
  split_ifs <;> simp_all

lemma stateInv_init0 : StateInv init0 := by
  simp [StateInv, init0]

set_option maxHeartbeats 1000000 in
lemma stateInv_arInit (cfg : OPUS_MULTISTREAM_CONFIGURATION) (env : InitEnv)
    (s : CState) (h : StateInv s) : StateInv (arInit cfg env s).fin := by
  obtain ⟨h1, h2, h3⟩ := h
  have hd := destroyDec_liveDec s h1
  have he : (destroyEnc (destroyDec s)).liveEnc = 0 := by
    apply destroyEnc_liveEnc
    simp [h2]
  simp only [arInit]
  split_ifs <;>
    simp_all [StateInv, destroyDec_liveDec_some, destroyEnc_liveEnc_some,
      -List.reduceReplicate]

lemma stateInv_arCleanup (s : CState) (h : StateInv s) :
    StateInv (arCleanup s).1 := by
  obtain ⟨h1, h2, h3⟩ := h
  have hd := destroyDec_liveDec s h1
  have he : (destroyEnc (destroyDec s)).liveEnc = 0 := by
    apply destroyEnc_liveEnc
    simp [h2]
  simp [arCleanup, StateInv, hd, he]

lemma stateInv_arFrame (env : FrameEnv) (d : Option (List Nat)) (l : Int)
    (s : CState) (h : StateInv s) :
    StateInv (arDecodeAndPlaySample env d l s).fin := by
  obtain ⟨h1, h2, h3⟩ := h
  simp only [arDecodeAndPlaySample]
  split_ifs with hg hdec hA hB hC hD
  · exact ⟨h1, h2, h3⟩
  · exact ⟨h1, h2, h3⟩
  all_goals (
    simp only [Bool.or_eq_true, Option.isNone_iff_eq_none, decide_eq_true_eq,
      not_or] at hg
    obtain ⟨⟨⟨hgd, hge⟩, hgdata⟩, hgl⟩ := hg
    have hds := Option.ne_none_iff_isSome.mp hgd
    have hes := Option.ne_none_iff_isSome.mp hge
    obtain ⟨⟨dp, hdp, hdpl⟩, ⟨pp, hpp, hppl⟩, hep⟩ := h3 hds hes
    dsimp only
    refine ⟨by simp [h1], by simp [h2], fun _ _ => ⟨?_, ?_, ?_⟩⟩)
  -- branch: downmix, encode failure
  · refine ⟨_, rfl, ?_⟩
    simp [hdp, memWrite_length, hdpl]
  · exact ⟨pp, hpp, hppl⟩
  · intro hcc
    obtain ⟨ep, hepp, heppl⟩ := hep hcc
    refine ⟨_, rfl, ?_⟩
    simp [downmixLoop_length, hepp, heppl]
  -- branch: no downmix, encode failure
  · refine ⟨_, rfl, ?_⟩
    simp [hdp, memWrite_length, hdpl]
  · exact ⟨pp, hpp, hppl⟩
  · exact hep
  -- branch: downmix, encode success
  · refine ⟨_, rfl, ?_⟩
    simp [hdp, memWrite_length, hdpl]
  · refine ⟨_, rfl, ?_⟩
    simp [hpp, memWrite_length, hppl]
  · intro hcc
    obtain ⟨ep, hepp, heppl⟩ := hep hcc
    refine ⟨_, rfl, ?_⟩
    simp [downmixLoop_length, hepp, heppl]
  -- branch: no downmix, encode success
  · refine ⟨_, rfl, ?_⟩
    simp [hdp, memWrite_length, hdpl]
  · refine ⟨_, rfl, ?_⟩
    simp [hpp, memWrite_length, hppl]
  · exact hep

/-- Every reachable state satisfies the invariant. -/
lemma reach_inv (s : CState) (h : Reach s) : StateInv s := by
  induction h with
  | start => exact stateInv_init0
  | doInit s cfg env _ ih => exact stateInv_arInit cfg env s ih
  | doCleanup s _ ih => exact stateInv_arCleanup s ih
  | doFrame s env d l _ ih => exact stateInv_arFrame env d l s ih

/-- Transcode calls are no-ops while the decoder handle is NULL. -/
lemma runFrames_noop (calls : List (FrameEnv × Option (List Nat) × Int))
    (s : CState) (h : s.decoder = none) : runFrames calls s = (s, []) := by
  induction calls with
  | nil => rfl
  | cons c cs ih =>
    have hc : arDecodeAndPlaySample c.1 c.2.1 c.2.2 s = ⟨s, none, []⟩ :=
      frame_guard_noop c.1 c.2.1 c.2.2 s (Or.inr (Or.inr (Or.inl h)))
    simp [runFrames, hc, ih]

lemma destroyDec_id (s : CState) (h : s.decoder = none) : destroyDec s = s := by
  unfold destroyDec
  simp [h]

lemma destroyEnc_id (s : CState) (h : s.encoder = none) : destroyEnc s = s := by
  unfold destroyEnc
  simp [h]

lemma freeDecodedPcm_id (s : CState) (h : s.decodedPcm = none) :
    freeDecodedPcm s = s := by
  unfold freeDecodedPcm
  simp [h]

lemma freeEncodePcm_id (s : CState) (h : s.encodePcm = none) :
    freeEncodePcm s = s := by
  unfold freeEncodePcm
  simp [h]

lemma freeOpusData_id (s : CState) (h : s.opusData = none) :
    freeOpusData s = s := by
  unfold freeOpusData
  simp [h]

/-- On an already-clean state, `arCleanup` destroys and frees nothing
and only notifies the host. -/
lemma arCleanup_noop_of_clean (t : CState) (hd : t.decoder = none)
    (he : t.encoder = none) (hp : t.decodedPcm = none)
    (hq : t.encodePcm = none) (hr : t.opusData = none) :
    arCleanup t = (t, [ArEvent.hostCleanup]) := by
  simp only [arCleanup]
  rw [destroyDec_id t hd, destroyEnc_id t he, freeDecodedPcm_id t hp,
    freeEncodePcm_id t hq, freeOpusData_id t hr]
  simp [hd, he, hp, hq, hr]

/-! ## Claims -/

/-- C10: `arDecodeAndPlaySample` is total at the public interface: for a
null input pointer, a non-positive length, or a missing decoder or
encoder handle it returns immediately with no decode, no encode, no
forward and no state change, instead of exhibiting undefined behaviour. -/
theorem c10_transcode_total_guard (env : FrameEnv)
    (sampleData : Option (List Nat)) (sampleLength : Int) (s : CState)
    (h : sampleData = none ∨ sampleLength ≤ 0 ∨ s.decoder = none ∨
      s.encoder = none) :
    arDecodeAndPlaySample env sampleData sampleLength s = ⟨s, none, []⟩ :=
  frame_guard_noop env sampleData sampleLength s h

/-- Witness for C10: a NULL data pointer on the start state. -/
theorem c10_transcode_total_guard_witness :
    ((none : Option (List Nat)) = none ∨ (1 : Int) ≤ 0 ∨
      init0.decoder = none ∨ init0.encoder = none) ∧
    arDecodeAndPlaySample ⟨1, [], 1, []⟩ none 1 init0 = ⟨init0, none, []⟩ :=
  ⟨Or.inl rfl,
    c10_transcode_total_guard ⟨1, [], 1, []⟩ none 1 init0 (Or.inl rfl)⟩

/-- C7 (amended): after `arCleanup` returns, every subsequent
`arDecodeAndPlaySample` call with no intervening `arInit` call is a
guaranteed no-op — entry is gated on the nulled codec handles, so no
decode, no encode, no forward and no state change occur.  (The original
claim's "before the next successful Initialize" fails: an intervening
`arInit` that fails only in the Go host init callback re-arms the
handles, see the counterexample.) -/
theorem c7_frames_after_cleanup_noop (s : CState)
    (calls : List (FrameEnv × Option (List Nat) × Int)) :
    runFrames calls (arCleanup s).1 = ((arCleanup s).1, []) :=
  runFrames_noop calls (arCleanup s).1 (arCleanup_clears s).1

/-- C7 counterexample: after a cleanup, an `arInit` that fails only in
the Go host init callback returns -1 — so no successful Initialize has
occurred — yet it leaves the codec handles live, and the next transcode
call decodes, encodes and forwards instead of being a no-op. -/
theorem c7_counterexample :
    (arInit cfg2 goFailEnv (arCleanup (arInit cfg2 allOkEnv init0).fin).1).res
        = -1 ∧
    (arDecodeAndPlaySample ⟨1, [3, 4], 1, [7]⟩ (some [1]) 1
        (arInit cfg2 goFailEnv
          (arCleanup (arInit cfg2 allOkEnv init0).fin).1).fin).events =
      [ArEvent.decodeCall, ArEvent.encodeCall, ArEvent.forward 1] := by
  decide

/-- C4 (amended): `arCleanup` is idempotent on the session state and
safe with no live session: a second consecutive call destroys and frees
nothing and leaves the state unchanged — but it emits the host teardown
notification again on every call (there is no entry liveness gate). -/
theorem c4_cleanup_idempotent_on_state (s : CState) :
    arCleanup ((arCleanup s).1) = ((arCleanup s).1, [ArEvent.hostCleanup]) := by
  obtain ⟨hd, he, hp, hq, hr, _⟩ := arCleanup_clears s
  exact arCleanup_noop_of_clean _ hd he hp hq hr

/-- C4 counterexample: `arCleanup` has no entry liveness gate: called
with no prior `Initialize` it still performs the host teardown
notification, and a second consecutive call emits it again. -/
theorem c4_counterexample :
    (arCleanup init0).2 = [ArEvent.hostCleanup] ∧
    (arCleanup (arCleanup init0).1).2 = [ArEvent.hostCleanup] := by
  decide

/-- C9: in every reachable state where both codec handles are live, the
decode buffer and the packet buffer are allocated with capacities
matching the stored configuration, and when the stored channel count
exceeds two the downmix buffer is allocated too — so a transcode call
that passes the entry guard never reaches an unallocated buffer. -/
theorem c9_reachable_buffers_allocated (s : CState) (h : Reach s)
    (hd : s.decoder.isSome) (he : s.encoder.isSome) :
    (∃ d, s.decodedPcm = some d ∧
      d.length = s.opusConfig.samplesPerFrame * s.opusConfig.channelCount) ∧
    (∃ p, s.opusData = some p ∧ p.length = 4000) ∧
    (s.opusConfig.channelCount > 2 →
      ∃ e, s.encodePcm = some e ∧
        e.length = s.opusConfig.samplesPerFrame * 2) :=
  (reach_inv s h).2.2 hd he

/-- Witness for C9: the state after one successful 5.1 `arInit`. -/
theorem c9_reachable_buffers_allocated_witness :
    Reach (arInit cfg6 allOkEnv init0).fin ∧
    (arInit cfg6 allOkEnv init0).fin.decoder.isSome = true ∧
    (arInit cfg6 allOkEnv init0).fin.encoder.isSome = true ∧
    ((∃ d, (arInit cfg6 allOkEnv init0).fin.decodedPcm = some d ∧
      d.length = (arInit cfg6 allOkEnv init0).fin.opusConfig.samplesPerFrame *
        (arInit cfg6 allOkEnv init0).fin.opusConfig.channelCount) ∧
    (∃ p, (arInit cfg6 allOkEnv init0).fin.opusData = some p ∧
      p.length = 4000) ∧
    ((arInit cfg6 allOkEnv init0).fin.opusConfig.channelCount > 2 →
      ∃ e, (arInit cfg6 allOkEnv init0).fin.encodePcm = some e ∧
        e.length =
          (arInit cfg6 allOkEnv init0).fin.opusConfig.samplesPerFrame * 2)) :=
  ⟨Reach.doInit init0 cfg6 allOkEnv Reach.start, by decide, by decide,
    c9_reachable_buffers_allocated (arInit cfg6 allOkEnv init0).fin
      (Reach.doInit init0 cfg6 allOkEnv Reach.start) (by decide) (by decide)⟩

/-- C5 counterexample: a successful re-`Initialize` from a 6-channel
session to a 2-channel session retains the prior session's downmix
buffer: the new session has `channelCount = 2`, yet a downmix buffer is
still allocated — refuting "downmix buffer exists iff channelCount > 2"
and "reinit always frees and recreates the session buffers". -/
theorem c5_counterexample :
    (arInit cfg2 allOkEnv (arInit cfg6 allOkEnv init0).fin).res = 0 ∧
    (arInit cfg2 allOkEnv
        (arInit cfg6 allOkEnv init0).fin).fin.opusConfig.channelCount = 2 ∧
    (arInit cfg2 allOkEnv
        (arInit cfg6 allOkEnv init0).fin).fin.encodePcm.isSome = true := by
  decide

/-- C5 (amended): in every reachable state with both handles live and
`channelCount > 2`, the downmix buffer exists at the configured capacity
(the forward direction of the claimed equivalence).  The converse fails:
a reinit to `channelCount ≤ 2` retains, rather than frees, a downmix
buffer surviving from a prior multichannel session, because `arInit`
frees the downmix buffer only inside its `channelCount > 2` branch. -/
theorem c5_downmix_buffer_exists (s : CState) (h : Reach s)
    (hd : s.decoder.isSome) (he : s.encoder.isSome)
    (hcc : s.opusConfig.channelCount > 2) :
    ∃ e, s.encodePcm = some e ∧
      e.length = s.opusConfig.samplesPerFrame * 2 :=
  ((reach_inv s h).2.2 hd he).2.2 hcc

/-- Witness for C5 (amended): the state after one successful 5.1
`arInit`. -/
theorem c5_downmix_buffer_exists_witness :
    Reach (arInit cfg6 allOkEnv init0).fin ∧
    (arInit cfg6 allOkEnv init0).fin.decoder.isSome = true ∧
    (arInit cfg6 allOkEnv init0).fin.encoder.isSome = true ∧
    (arInit cfg6 allOkEnv init0).fin.opusConfig.channelCount > 2 ∧
    (∃ e, (arInit cfg6 allOkEnv init0).fin.encodePcm = some e ∧
      e.length =
        (arInit cfg6 allOkEnv init0).fin.opusConfig.samplesPerFrame * 2) :=
  ⟨Reach.doInit init0 cfg6 allOkEnv Reach.start, by decide, by decide,
    by decide,
    c5_downmix_buffer_exists (arInit cfg6 allOkEnv init0).fin
      (Reach.doInit init0 cfg6 allOkEnv Reach.start) (by decide) (by decide)
      (by decide)⟩

/-- C1 counterexample: when re-`Initialize` on a live session fails at
decoder construction, the call returns failure but the prior session's
decode buffer and packet buffer are still allocated — the rollback does
not cover buffers surviving from the previous session. -/
theorem c1_counterexample :
    (arInit cfg2 decFailEnv (arInit cfg2 allOkEnv init0).fin).res = -1 ∧
    (arInit cfg2 decFailEnv
        (arInit cfg2 allOkEnv init0).fin).fin.decodedPcm.isSome = true ∧
    (arInit cfg2 decFailEnv
        (arInit cfg2 allOkEnv init0).fin).fin.opusData.isSome = true := by
  decide

/-- C1 (amended): if `arInit` fails at codec construction or at any of
its three allocations, it returns -1 and rolls back the constructions of
this call: no decoder and no encoder remain live.  Buffers surviving
from a prior session may remain allocated (they are freed only once the
failing call reaches their reallocation step, or by `arCleanup`), and a
failure reported by the Go host init callback performs no rollback. -/
theorem c1_init_failure_rollback (cfg : OPUS_MULTISTREAM_CONFIGURATION)
    (env : InitEnv) (s : CState)
    (h : env.decoderOk = false ∨ env.encoderOk = false ∨
      env.decodedPcmOk = false ∨
      (cfg.channelCount > 2 ∧ env.encodePcmOk = false) ∨
      env.opusDataOk = false) :
    (arInit cfg env s).res = -1 ∧ (arInit cfg env s).fin.decoder = none ∧
    (arInit cfg env s).fin.encoder = none := by
  simp only [arInit]
  split_ifs <;> simp_all

/-- Witness for C1 (amended): decoder construction fails on a fresh
5.1 init. -/
theorem c1_init_failure_rollback_witness :
    (decFailEnv.decoderOk = false ∨ decFailEnv.encoderOk = false ∨
      decFailEnv.decodedPcmOk = false ∨
      (cfg6.channelCount > 2 ∧ decFailEnv.encodePcmOk = false) ∨
      decFailEnv.opusDataOk = false) ∧
    ((arInit cfg6 decFailEnv init0).res = -1 ∧
      (arInit cfg6 decFailEnv init0).fin.decoder = none ∧
      (arInit cfg6 decFailEnv init0).fin.encoder = none) :=
  ⟨Or.inl rfl, c1_init_failure_rollback cfg6 decFailEnv init0 (Or.inl rfl)⟩

/-- C6 counterexample: a frame whose decode succeeds and whose encode
fails produces no forward, but the session state is not unchanged: the
decode buffer's contents were overwritten by the successful decode. -/
theorem c6_counterexample :
    (arDecodeAndPlaySample ⟨2, [5, 6, 7, 8], -1, []⟩ (some [9]) 1
        (arInit cfg2 allOkEnv init0).fin).events =
      [ArEvent.decodeCall, ArEvent.encodeCall] ∧
    (arDecodeAndPlaySample ⟨2, [5, 6, 7, 8], -1, []⟩ (some [9]) 1
        (arInit cfg2 allOkEnv init0).fin).fin.decodedPcm = some [5, 6, 7, 8] ∧
    (arInit cfg2 allOkEnv init0).fin.decodedPcm = some [0, 0, 0, 0] := by
  decide

/-- C6 (amended): for an initialized session, a frame whose decode or
encode step returns a negative result produces zero downstream forwards
and leaves the codec handles, the stored configuration, the live-
instance counters, the packet buffer, and every buffer's allocation
status and capacity unchanged (after a successful decode followed by a
failed encode the scratch PCM contents have been overwritten), so the
session stays live and the next call proceeds as if the failed frame had
not arrived. -/
theorem c6_frame_failure_drops (env : FrameEnv) (d : Option (List Nat))
    (l : Int) (s : CState) (hbuf : s.decodedPcm.isSome)
    (h : env.decodeResult < 0 ∨ env.encodeResult < 0) :
    (∀ k, ArEvent.forward k ∉ (arDecodeAndPlaySample env d l s).events) ∧
    (arDecodeAndPlaySample env d l s).fin.decoder = s.decoder ∧
    (arDecodeAndPlaySample env d l s).fin.encoder = s.encoder ∧
    (arDecodeAndPlaySample env d l s).fin.opusConfig = s.opusConfig ∧
    (arDecodeAndPlaySample env d l s).fin.decodedPcm.isSome
        = s.decodedPcm.isSome ∧
    ((arDecodeAndPlaySample env d l s).fin.decodedPcm.getD []).length
        = (s.decodedPcm.getD []).length ∧
    (arDecodeAndPlaySample env d l s).fin.encodePcm.isSome
        = s.encodePcm.isSome ∧
    ((arDecodeAndPlaySample env d l s).fin.encodePcm.getD []).length
        = (s.encodePcm.getD []).length ∧
    (arDecodeAndPlaySample env d l s).fin.opusData = s.opusData ∧
    (arDecodeAndPlaySample env d l s).fin.liveDec = s.liveDec ∧
    (arDecodeAndPlaySample env d l s).fin.liveEnc = s.liveEnc := by
  simp only [arDecodeAndPlaySample]
  split_ifs with hg hdec hA hB hC hD
  · exact ⟨fun k => by simp, rfl, rfl, rfl, rfl, rfl, rfl, rfl, rfl, rfl, rfl⟩
  · exact ⟨fun k => by simp, rfl, rfl, rfl, rfl, rfl, rfl, rfl, rfl, rfl, rfl⟩
  · -- encode failure, downmix branch
    obtain ⟨e, hee⟩ := Option.isSome_iff_exists.mp (by
      simp only [Bool.and_eq_true] at hB
      exact hB.2)
    obtain ⟨dbuf, hbb⟩ := Option.isSome_iff_exists.mp hbuf
    simp [hee, hbb, memWrite_length, downmixLoop_length]
  · -- encode failure, no downmix
    obtain ⟨dbuf, hbb⟩ := Option.isSome_iff_exists.mp hbuf
    simp [hbb, memWrite_length]
  · -- encode success: contradicts the failure hypothesis
    rcases h with h | h <;> omega
  · rcases h with h | h <;> omega

/-- Witness for C6 (amended): an encode failure on a live stereo
session. -/
theorem c6_frame_failure_drops_witness :
    (arInit cfg2 allOkEnv init0).fin.decodedPcm.isSome = true ∧
    (((2 : Int) < 0) ∨ ((-1 : Int) < 0)) ∧
    ((∀ k, ArEvent.forward k ∉
      (arDecodeAndPlaySample ⟨2, [5, 6, 7, 8], -1, []⟩ (some [9]) 1
        (arInit cfg2 allOkEnv init0).fin).events) ∧
    (arDecodeAndPlaySample ⟨2, [5, 6, 7, 8], -1, []⟩ (some [9]) 1
        (arInit cfg2 allOkEnv init0).fin).fin.decoder
      = (arInit cfg2 allOkEnv init0).fin.decoder ∧
    (arDecodeAndPlaySample ⟨2, [5, 6, 7, 8], -1, []⟩ (some [9]) 1
        (arInit cfg2 allOkEnv init0).fin).fin.encoder
      = (arInit cfg2 allOkEnv init0).fin.encoder ∧
    (arDecodeAndPlaySample ⟨2, [5, 6, 7, 8], -1, []⟩ (some [9]) 1
        (arInit cfg2 allOkEnv init0).fin).fin.opusConfig
      = (arInit cfg2 allOkEnv init0).fin.opusConfig ∧
    (arDecodeAndPlaySample ⟨2, [5, 6, 7, 8], -1, []⟩ (some [9]) 1
        (arInit cfg2 allOkEnv init0).fin).fin.decodedPcm.isSome
      = (arInit cfg2 allOkEnv init0).fin.decodedPcm.isSome ∧
    ((arDecodeAndPlaySample ⟨2, [5, 6, 7, 8], -1, []⟩ (some [9]) 1
        (arInit cfg2 allOkEnv init0).fin).fin.decodedPcm.getD []).length
      = ((arInit cfg2 allOkEnv init0).fin.decodedPcm.getD []).length ∧
    (arDecodeAndPlaySample ⟨2, [5, 6, 7, 8], -1, []⟩ (some [9]) 1
        (arInit cfg2 allOkEnv init0).fin).fin.encodePcm.isSome
      = (arInit cfg2 allOkEnv init0).fin.encodePcm.isSome ∧
    ((arDecodeAndPlaySample ⟨2, [5, 6, 7, 8], -1, []⟩ (some [9]) 1
        (arInit cfg2 allOkEnv init0).fin).fin.encodePcm.getD []).length
      = ((arInit cfg2 allOkEnv init0).fin.encodePcm.getD []).length ∧
    (arDecodeAndPlaySample ⟨2, [5, 6, 7, 8], -1, []⟩ (some [9]) 1
        (arInit cfg2 allOkEnv init0).fin).fin.opusData
      = (arInit cfg2 allOkEnv init0).fin.opusData ∧
    (arDecodeAndPlaySample ⟨2, [5, 6, 7, 8], -1, []⟩ (some [9]) 1
        (arInit cfg2 allOkEnv init0).fin).fin.liveDec
      = (arInit cfg2 allOkEnv init0).fin.liveDec ∧
    (arDecodeAndPlaySample ⟨2, [5, 6, 7, 8], -1, []⟩ (some [9]) 1
        (arInit cfg2 allOkEnv init0).fin).fin.liveEnc
      = (arInit cfg2 allOkEnv init0).fin.liveEnc) :=
  ⟨by decide, Or.inr (by decide),
    c6_frame_failure_drops ⟨2, [5, 6, 7, 8], -1, []⟩ (some [9]) 1
      (arInit cfg2 allOkEnv init0).fin (by decide) (Or.inr (by decide))⟩

/-- C2: for a live session whose downmix buffer has the configured
capacity and whose decode result is within the frame bound, when
`channelCount > 2` the encoder input is the downmix buffer, whose
left / right samples at every decoded index equal the decode buffer's
channel-0 / channel-1 samples of that frame (channels 2..N-1 are
discarded); and when `channelCount ≤ 2` the decode buffer itself is
passed to the encoder, with no copy. -/
theorem c2_downmix_selects_channels (env : FrameEnv) (d : List Nat) (l : Int)
    (s : CState) (hd : s.decoder.isSome) (he : s.encoder.isSome) (hl : 0 < l)
    (hres : 0 ≤ env.decodeResult)
    (hbound : env.decodeResult.toNat ≤ s.opusConfig.samplesPerFrame)
    (hebuf : ∀ e, s.encodePcm = some e →
      e.length = s.opusConfig.samplesPerFrame * 2) :
    ∃ dbuf, (arDecodeAndPlaySample env (some d) l s).fin.decodedPcm
        = some dbuf ∧
      ((s.opusConfig.channelCount > 2 → s.encodePcm.isSome →
        ∃ ebuf, (arDecodeAndPlaySample env (some d) l s).encoderInput
            = some ebuf ∧
          (arDecodeAndPlaySample env (some d) l s).fin.encodePcm
            = some ebuf ∧
          ∀ i, i < env.decodeResult.toNat →
            ebuf.getD (i * 2) 0
                = dbuf.getD (i * s.opusConfig.channelCount) 0 ∧
            ebuf.getD (i * 2 + 1) 0
                = dbuf.getD (i * s.opusConfig.channelCount + 1) 0) ∧
       (s.opusConfig.channelCount ≤ 2 →
        (arDecodeAndPlaySample env (some d) l s).encoderInput = some dbuf)) := by
  simp only [arDecodeAndPlaySample]
  split_ifs with hg hdec hA hB hC
  · exfalso
    simp only [Bool.or_eq_true, Option.isNone_iff_eq_none,
      decide_eq_true_eq] at hg
    rcases hg with ((h1 | h1) | h1) | h1
    · simp [h1] at hd
    · simp [h1] at he
    · exact Option.noConfusion h1
    · omega
  · omega
  · -- encode failure, downmix branch
    simp only [Bool.and_eq_true, decide_eq_true_eq] at hB
    obtain ⟨hcc, hsome⟩ := hB
    obtain ⟨e, hee⟩ := Option.isSome_iff_exists.mp hsome
    refine ⟨_, rfl, fun _ _ => ⟨_, rfl, rfl, fun i hi => ?_⟩,
      fun hle => absurd hcc (by omega)⟩
    refine downmixLoop_getD _ _ _ _ ?_ i hi
    have hlen := hebuf e hee
    rw [hee]
    simp only [Option.getD_some]
    omega
  · -- encode failure, no downmix
    refine ⟨_, rfl, fun hcc hsome => ?_, fun hle => rfl⟩
    exfalso
    simp only [Bool.and_eq_true, decide_eq_true_eq] at hB
    exact hB ⟨hcc, hsome⟩
  · -- encode success, downmix branch
    simp only [Bool.and_eq_true, decide_eq_true_eq] at hC
    obtain ⟨hcc, hsome⟩ := hC
    obtain ⟨e, hee⟩ := Option.isSome_iff_exists.mp hsome
    refine ⟨_, rfl, fun _ _ => ⟨_, rfl, rfl, fun i hi => ?_⟩,
      fun hle => absurd hcc (by omega)⟩
    refine downmixLoop_getD _ _ _ _ ?_ i hi
    have hlen := hebuf e hee
    rw [hee]
    simp only [Option.getD_some]
    omega
  · -- encode success, no downmix
    refine ⟨_, rfl, fun hcc hsome => ?_, fun hle => rfl⟩
    exfalso
    simp only [Bool.and_eq_true, decide_eq_true_eq] at hC
    exact hC ⟨hcc, hsome⟩

/-- Witness for C2: one decoded 6-channel sample frame on a live 5.1
session; channels 0 and 1 are selected into the downmix buffer. -/
theorem c2_downmix_selects_channels_witness :
    (arInit cfg6 allOkEnv init0).fin.decoder.isSome = true ∧
    (arInit cfg6 allOkEnv init0).fin.encoder.isSome = true ∧
    (0 : Int) < 1 ∧
    (0 : Int) ≤ (1 : Int) ∧
    (Int.toNat 1 ≤ (arInit cfg6 allOkEnv init0).fin.opusConfig.samplesPerFrame) ∧
    (∀ e, (arInit cfg6 allOkEnv init0).fin.encodePcm = some e →
      e.length = (arInit cfg6 allOkEnv init0).fin.opusConfig.samplesPerFrame * 2) ∧
    (∃ dbuf, (arDecodeAndPlaySample ⟨1, [10, 20, 30, 40, 50, 60], 2, [8, 9]⟩
        (some [1]) 1 (arInit cfg6 allOkEnv init0).fin).fin.decodedPcm
          = some dbuf ∧
      (((arInit cfg6 allOkEnv init0).fin.opusConfig.channelCount > 2 →
        (arInit cfg6 allOkEnv init0).fin.encodePcm.isSome →
        ∃ ebuf, (arDecodeAndPlaySample ⟨1, [10, 20, 30, 40, 50, 60], 2, [8, 9]⟩
            (some [1]) 1 (arInit cfg6 allOkEnv init0).fin).encoderInput
              = some ebuf ∧
          (arDecodeAndPlaySample ⟨1, [10, 20, 30, 40, 50, 60], 2, [8, 9]⟩
            (some [1]) 1 (arInit cfg6 allOkEnv init0).fin).fin.encodePcm
              = some ebuf ∧
          ∀ i, i < (Int.toNat 1) →
            ebuf.getD (i * 2) 0 = dbuf.getD
              (i * (arInit cfg6 allOkEnv init0).fin.opusConfig.channelCount) 0 ∧
            ebuf.getD (i * 2 + 1) 0 = dbuf.getD
              (i * (arInit cfg6 allOkEnv init0).fin.opusConfig.channelCount + 1) 0) ∧
       ((arInit cfg6 allOkEnv init0).fin.opusConfig.channelCount ≤ 2 →
        (arDecodeAndPlaySample ⟨1, [10, 20, 30, 40, 50, 60], 2, [8, 9]⟩
          (some [1]) 1 (arInit cfg6 allOkEnv init0).fin).encoderInput
            = some dbuf))) :=
  ⟨by decide, by decide, by decide, by decide, by decide,
    (by
      intro e h
      rw [show (arInit cfg6 allOkEnv init0).fin.encodePcm = some [0, 0] by
        decide] at h
      obtain rfl := Option.some.inj h
      decide),
    c2_downmix_selects_channels ⟨1, [10, 20, 30, 40, 50, 60], 2, [8, 9]⟩
      [1] 1 (arInit cfg6 allOkEnv init0).fin (by decide) (by decide)
      (by decide) (by decide) (by decide)
      (by
        intro e h
        rw [show (arInit cfg6 allOkEnv init0).fin.encodePcm = some [0, 0] by
          decide] at h
        obtain rfl := Option.some.inj h
        decide)⟩

set_option maxHeartbeats 1000000 in
/-- C3: starting from any state whose live-instance counters match its
handle fields (true of every reachable state), every intermediate state
during `arInit` — and its final state — carries at most one live decoder
and at most one live encoder: the prior pair is destroyed before any new
codec is constructed, so two live decoder/encoder pairs never coexist. -/
theorem c3_no_two_live_pairs (cfg : OPUS_MULTISTREAM_CONFIGURATION)
    (env : InitEnv) (s : CState)
    (h1 : s.liveDec = if s.decoder.isSome then 1 else 0)
    (h2 : s.liveEnc = if s.encoder.isSome then 1 else 0) :
    ∀ t ∈ (arInit cfg env s).trace, t.liveDec ≤ 1 ∧ t.liveEnc ≤ 1 := by
  have hd := destroyDec_liveDec s h1
  have he : (destroyEnc (destroyDec s)).liveEnc = 0 := by
    apply destroyEnc_liveEnc
    simp [h2]
  have hd1 : s.liveDec ≤ 1 := by rw [h1]; split <;> omega
  have he1 : s.liveEnc ≤ 1 := by rw [h2]; split <;> omega
  simp only [arInit]
  split_ifs <;>
    (simp only [List.cons_append, List.nil_append, List.forall_mem_cons,
      List.forall_mem_nil, and_true]) <;>
    (first
      | (simp_all [destroyDec_liveDec_some, destroyEnc_liveEnc_some,
          -List.reduceReplicate]
         done)
      | (simp_all [destroyDec_liveDec_some, destroyEnc_liveEnc_some,
          -List.reduceReplicate]
         omega)
      | omega)

/-- Witness for C3: a fresh stereo `arInit` from the start state. -/
theorem c3_no_two_live_pairs_witness :
    (init0.liveDec = if init0.decoder.isSome then 1 else 0) ∧
    (init0.liveEnc = if init0.encoder.isSome then 1 else 0) ∧
    ∀ t ∈ (arInit cfg2 allOkEnv init0).trace,
      t.liveDec ≤ 1 ∧ t.liveEnc ≤ 1 :=
  ⟨by decide, by decide,
    c3_no_two_live_pairs cfg2 allOkEnv init0 (by decide) (by decide)⟩

set_option maxHeartbeats 1000000 in
/-- C8: with the end-to-end config (48 kHz, 6 channels, 4 streams, 2
coupled, mapping 0..5, 240 samples per frame) and all external steps
succeeding, `arInit` succeeds; the decode buffer holds 1440 samples, the
downmix buffer 480 samples, and the encoder is configured for 2 channels
at bitrate 128000 = 64000 × min(channelCount, 2); one transcode of a
valid frame then produces exactly one forward whose packet length is the
encoder's byte count in (0, 4000]. -/
theorem c8_e2e (s : CState) (fenv : FrameEnv) (d : List Nat) (l : Int)
    (hl : 0 < l) (hdecr : fenv.decodeResult = 240)
    (henc1 : 0 < fenv.encodeResult) (henc2 : fenv.encodeResult ≤ 4000) :
    (arInit cfg8 allOkEnv s).res = 0 ∧
    (∃ db, (arInit cfg8 allOkEnv s).fin.decodedPcm = some db ∧
      db.length = 1440) ∧
    (∃ eb, (arInit cfg8 allOkEnv s).fin.encodePcm = some eb ∧
      eb.length = 480) ∧
    (∃ enc, (arInit cfg8 allOkEnv s).fin.encoder = some enc ∧
      enc.channels = 2 ∧ enc.bitrate = 128000 ∧
      enc.bitrate = 64000 * min cfg8.channelCount 2) ∧
    (arDecodeAndPlaySample fenv (some d) l (arInit cfg8 allOkEnv s).fin).events
      = [ArEvent.decodeCall, ArEvent.encodeCall,
          ArEvent.forward fenv.encodeResult] ∧
    0 < fenv.encodeResult ∧ fenv.encodeResult ≤ 4000 := by
  have hl' : ¬ l ≤ 0 := by omega
  have hdec' : ¬ fenv.decodeResult < 0 := by omega
  have henc' : ¬ fenv.encodeResult < 0 := by omega
  refine ⟨?_, ?_, ?_, ?_, ?_, henc1, henc2⟩ <;>
    simp [arInit, arDecodeAndPlaySample, allOkEnv, cfg8, outputChannelsOf,
      hl', hdec', henc', -List.reduceReplicate]

/-- Witness for C8: the end-to-end run from the start state with a frame
that decodes to 240 samples and encodes to 100 bytes. -/
theorem c8_e2e_witness :
    ((0 : Int) < 1 ∧
      (⟨240, [], 100, [1, 2, 3]⟩ : FrameEnv).decodeResult = 240 ∧
      0 < (⟨240, [], 100, [1, 2, 3]⟩ : FrameEnv).encodeResult ∧
      (⟨240, [], 100, [1, 2, 3]⟩ : FrameEnv).encodeResult ≤ 4000) ∧
    ((arInit cfg8 allOkEnv init0).res = 0 ∧
    (∃ db, (arInit cfg8 allOkEnv init0).fin.decodedPcm = some db ∧
      db.length = 1440) ∧
    (∃ eb, (arInit cfg8 allOkEnv init0).fin.encodePcm = some eb ∧
      eb.length = 480) ∧
    (∃ enc, (arInit cfg8 allOkEnv init0).fin.encoder = some enc ∧
      enc.channels = 2 ∧ enc.bitrate = 128000 ∧
      enc.bitrate = 64000 * min cfg8.channelCount 2) ∧
    (arDecodeAndPlaySample ⟨240, [], 100, [1, 2, 3]⟩ (some [9]) 1
        (arInit cfg8 allOkEnv init0).fin).events
      = [ArEvent.decodeCall, ArEvent.encodeCall, ArEvent.forward 100] ∧
    (0 : Int) < 100 ∧ (100 : Int) ≤ 4000) :=
  ⟨⟨by decide, rfl, by decide, by decide⟩,
    c8_e2e init0 ⟨240, [], 100, [1, 2, 3]⟩ [9] 1 (by decide) rfl
      (by decide) (by decide)⟩
